import Mathlib

/-!
# Resource lifecycle verbs of the Cosmos Gremlin database and Migrate project resources

A shallow embedding of

* `azurerm/internal/services/cosmos/cosmosdb_gremlin_database_resource.go`
* `azurerm/internal/services/migrate/migrate_project_resource.go`

The remote API is an oracle: every call site of a verb has its reply supplied as an
input (`remote`), so a statement quantified over `remote` holds for every sequence of
remote responses.  Each verb returns its outcome, the resource data as it leaves it and
the remote calls it issued, in order.
-/

namespace Azurerm

/-- What the not-found helpers look at in an HTTP response: its status code.
`none` is a nil response. -/
abbrev Response := Option Nat

/-- A Go `error` value returned by a collaborator: its message. -/
abbrev GoError := String

/-- A Go pair `(value, err)` returned by a client call; `err = none` is `err == nil`. -/
structure Reply (α : Type) where
  val : α
  err : Option GoError
  deriving Repr, DecidableEq

/-- The future of a long-running operation: `Response` is what `future.Response()`
returns (nil for a future that never got a response). -/
structure Future where
  Response : Response
  deriving Repr, DecidableEq

/-- The `fmt.Errorf` sites of the two resources, one constructor per format string. -/
inductive Site where
  | checkingPresence
  | generatingImportID
  | issuingCreateUpdate
  | waitingCreateUpdate
  | makingGetRequest
  | gettingID
  | settingThroughput
  | waitingThroughputUpdate
  | reading
  | readingThroughput
  | deleting
  | waitingDelete
  | creatingUpdating
  | retrieving
  | cannotReadID
  | settingTags
  deriving Repr, DecidableEq

/-- The `error` a verb returns. -/
inductive Error where
  /-- The error of the identifier parser, returned as it is (`return err`). -/
  | decode (cause : GoError)
  /-- The value of `tf.ImportAsExistsError(resourceName, id)`. -/
  | importAsExists (resourceName : String) (id : String)
  /-- The value of `fmt.Errorf` at `site`, wrapping `cause` when it prints one. -/
  | errorf (site : Site) (cause : Option GoError)
  deriving Repr, DecidableEq

/-- How a verb ends: `return nil`, `return err`, or a runtime fault on dereferencing
a nil pointer. -/
inductive Outcome where
  | success
  | failure (e : Error)
  | nilDereference
  deriving Repr, DecidableEq

/-- One run of a verb: its outcome, the resource data afterwards, the remote calls
issued so far (oldest first). -/
structure Run (D C : Type) where
  result : Outcome
  d : D
  calls : List C

/-- Modelled from the spec: `utils.ResponseWasNotFound` is not among the sources; the
spec's `NotFound` classification of a provider reply is the HTTP status 404, and a nil
response is never not-found. -/
def utils.ResponseWasNotFound (resp : Response) : Bool :=
  resp == some 404

/-- Modelled from the spec: `response.WasNotFound` (go-azure-helpers) is not among the
sources; same classification as `utils.ResponseWasNotFound`, on `future.Response()`. -/
def response.WasNotFound (resp : Response) : Bool :=
  resp == some 404

/-! ## Cosmos Gremlin database -/

namespace cosmos

/-- The locator `parse.GremlinDatabaseID` decodes an identifier to. -/
structure GremlinDatabaseId where
  ResourceGroup : String
  Account : String
  Name : String
  deriving Repr, DecidableEq

/-- The schema's attributes. -/
structure Attributes where
  name : String
  resource_group_name : String
  account_name : String
  throughput : Option Int
  deriving Repr, DecidableEq

/-- The `*schema.ResourceData` of one call: `Id` is `d.Id()`, `config` is what `d.Get`
reads, `HasChangeThroughput` is `d.HasChange("throughput")`, `state` is what `d.Set`
writes. -/
structure ResourceData where
  Id : String
  config : Attributes
  HasChangeThroughput : Bool
  state : Attributes
  deriving Repr, DecidableEq

/-- The method `d.SetId(v)`. -/
def ResourceData.SetId (d : ResourceData) (v : String) : ResourceData :=
  { d with Id := v }

/-- The pair returned by `d.GetOk("throughput")`: the value, and whether it is set to a
non-zero value. -/
def ResourceData.GetOkThroughput (d : ResourceData) : Int × Bool :=
  match d.config.throughput with
  | some v => (v, v != 0)
  | none => (0, false)

/-- The value of `d.Get("throughput")`. -/
def ResourceData.GetThroughput (d : ResourceData) : Int :=
  d.config.throughput.getD 0

/-- The part `props.Resource` of a get result. -/
structure GremlinDatabaseGetPropertiesResource where
  ID : Option String
  deriving Repr, DecidableEq

/-- The part `resp.GremlinDatabaseGetProperties` of a get result. -/
structure GremlinDatabaseGetProperties where
  Resource : Option GremlinDatabaseGetPropertiesResource
  deriving Repr, DecidableEq

/-- The result `documentdb.GremlinDatabaseGetResults`: pointers are options. -/
structure GremlinDatabaseGetResults where
  Response : Response
  ID : Option String
  Properties : Option GremlinDatabaseGetProperties
  deriving Repr, DecidableEq

/-- The result `documentdb.ThroughputSettingsGetResults`; `Throughput` is what
`common.GetThroughputFromResult` extracts from it. -/
structure ThroughputSettingsGetResults where
  Response : Response
  Throughput : Option Int
  deriving Repr, DecidableEq

/-- The remote calls of the Gremlin client, with the arguments the verbs pass. -/
inductive Call where
  | GetGremlinDatabase (resourceGroup account name : String)
  | CreateUpdateGremlinDatabase (resourceGroup account name : String)
      (resourceID : String) (throughput : Option Int)
  | UpdateGremlinDatabaseThroughput (resourceGroup account name : String) (throughput : Int)
  | GetGremlinDatabaseThroughput (resourceGroup account name : String)
  | DeleteGremlinDatabase (resourceGroup account name : String)
  /-- The call `future.WaitForCompletionRef`, on the future of a create/update. -/
  | WaitCreateUpdate
  /-- The call `throughputFuture.WaitForCompletionRef`. -/
  | WaitThroughputUpdate
  /-- The call `future.WaitForCompletionRef`, on the future of a delete. -/
  | WaitDelete
  deriving Repr, DecidableEq

/-- Whether a call is a create/update mutation request (base or throughput). -/
def Call.isMutation : Call → Bool
  | .CreateUpdateGremlinDatabase .. => true
  | .UpdateGremlinDatabaseThroughput .. => true
  | _ => false

/-- Whether a call awaits a long-running operation. -/
def Call.isWait : Call → Bool
  | .WaitCreateUpdate => true
  | .WaitThroughputUpdate => true
  | .WaitDelete => true
  | _ => false

/-- Replies to the two lookups of Read, in call order. -/
structure ReadReplies where
  get : Reply GremlinDatabaseGetResults
  throughput : Reply ThroughputSettingsGetResults

/-- Replies to the calls of Create, in call order.  The reply to a
`WaitForCompletionRef` carries the future as the wait leaves it. -/
structure CreateReplies where
  existing : Reply GremlinDatabaseGetResults
  createUpdate : Reply Future
  wait : Reply Future
  get : Reply GremlinDatabaseGetResults
  read : ReadReplies

/-- Modelled from the spec: how `WaitForCompletionRef` ends on the future a refused
request returned.  The tracker of long-running operations is not among the sources; in the
spec a request the remote API refuses synchronously starts no operation, so such a wait
has no completion to report: it returns an error, or faults on the future that was never
initialised. -/
inductive RefusedWait where
  | error (err : GoError)
  | fault
  deriving Repr, DecidableEq

/-- Replies to the calls of Update, in call order.  `throughputWait` answers the wait on
the future of an accepted throughput request, `throughputWaitRefused` the wait on the
future of a refused one. -/
structure UpdateReplies where
  createUpdate : Reply Future
  wait : Reply Future
  throughputUpdate : Reply Future
  throughputWait : Reply Future
  throughputWaitRefused : RefusedWait
  get : Reply GremlinDatabaseGetResults
  read : ReadReplies

/-- Replies to the calls of Delete, in call order. -/
structure DeleteReplies where
  delete : Reply Future
  wait : Reply Future

/-- The identifier parser `parse.GremlinDatabaseID`, which is not among the sources:
a parameter of every verb that decodes. -/
abbrev Decoder := String → Except GoError GremlinDatabaseId

/-- Go: `resourceArmCosmosGremlinDatabaseRead`. -/
def resourceArmCosmosGremlinDatabaseRead (GremlinDatabaseID : Decoder)
    (remote : ReadReplies) (d : ResourceData) (calls : List Call) :
    Run ResourceData Call :=
  match GremlinDatabaseID d.Id with
  | .error err => ⟨.failure (.decode err), d, calls⟩
  | .ok id =>
    let calls := calls ++ [.GetGremlinDatabase id.ResourceGroup id.Account id.Name]
    let resp := remote.get.val
    match remote.get.err with
    | some err =>
      if utils.ResponseWasNotFound resp.Response then
        ⟨.success, d.SetId "", calls⟩
      else
        ⟨.failure (.errorf .reading (some err)), d, calls⟩
    | none =>
      let d := { d with state := { d.state with resource_group_name := id.ResourceGroup } }
      let d := { d with state := { d.state with account_name := id.Account } }
      let d :=
        match resp.Properties with
        | some props =>
          match props.Resource with
          | some res => { d with state := { d.state with name := res.ID.getD "" } }
          | none => d
        | none => d
      let calls := calls ++ [.GetGremlinDatabaseThroughput id.ResourceGroup id.Account id.Name]
      let throughputResp := remote.throughput.val
      match remote.throughput.err with
      | some err =>
        if !utils.ResponseWasNotFound throughputResp.Response then
          ⟨.failure (.errorf .readingThroughput (some err)), d, calls⟩
        else
          ⟨.success, { d with state := { d.state with throughput := none } }, calls⟩
      | none =>
        ⟨.success, { d with state := { d.state with throughput := throughputResp.Throughput } },
          calls⟩

/-- The value of the Go condition `p == nil && *p == ""` on a `*string`, `none` when
evaluating it dereferences a nil pointer: `&&` evaluates its right operand, `*p == ""`,
only when the left one, `p == nil`, holds. -/
def nilAndEmpty (p : Option String) : Option Bool :=
  if p.isNone then
    match p with
    | none => none
    | some s => some (s == "")
  else
    some false

/-- Go: `resourceArmCosmosGremlinDatabaseCreate`; `ShouldResourcesBeImported` is the
value of `features.ShouldResourcesBeImported()`. -/
def resourceArmCosmosGremlinDatabaseCreate (GremlinDatabaseID : Decoder)
    (ShouldResourcesBeImported : Bool) (remote : CreateReplies) (d : ResourceData) :
    Run ResourceData Call :=
  let name := d.config.name
  let resourceGroup := d.config.resource_group_name
  let account := d.config.account_name
  -- the statements after the import check, from `db := ...` on
  let proceed (calls : List Call) : Run ResourceData Call :=
    let throughput : Option Int :=
      if d.GetOkThroughput.2 then some d.GetOkThroughput.1 else none
    let calls := calls ++ [.CreateUpdateGremlinDatabase resourceGroup account name name throughput]
    match remote.createUpdate.err with
    | some err => ⟨.failure (.errorf .issuingCreateUpdate (some err)), d, calls⟩
    | none =>
      let calls := calls ++ [.WaitCreateUpdate]
      match remote.wait.err with
      | some err => ⟨.failure (.errorf .waitingCreateUpdate (some err)), d, calls⟩
      | none =>
        let calls := calls ++ [.GetGremlinDatabase resourceGroup account name]
        let resp := remote.get.val
        match remote.get.err with
        | some err => ⟨.failure (.errorf .makingGetRequest (some err)), d, calls⟩
        | none =>
          match resp.ID with
          | none => ⟨.failure (.errorf .gettingID none), d, calls⟩
          | some respID =>
            resourceArmCosmosGremlinDatabaseRead GremlinDatabaseID remote.read
              (d.SetId respID) calls
  if ShouldResourcesBeImported then
    let calls := [Call.GetGremlinDatabase resourceGroup account name]
    let existing := remote.existing.val
    match remote.existing.err with
    | some err =>
      if !utils.ResponseWasNotFound existing.Response then
        ⟨.failure (.errorf .checkingPresence (some err)), d, calls⟩
      else
        proceed calls
    | none =>
      -- `if existing.ID == nil && *existing.ID == ""`
      match nilAndEmpty existing.ID with
      | none => ⟨.nilDereference, d, calls⟩
      | some true => ⟨.failure (.errorf .generatingImportID none), d, calls⟩
      | some false =>
        -- `return tf.ImportAsExistsError("azurerm_cosmosdb_gremlin_database", *existing.ID)`
        match existing.ID with
        | none => ⟨.nilDereference, d, calls⟩
        | some existingID =>
          ⟨.failure (.importAsExists "azurerm_cosmosdb_gremlin_database" existingID), d, calls⟩
  else
    proceed []

/-- Go: `resourceArmCosmosGremlinDatabaseUpdate`. -/
def resourceArmCosmosGremlinDatabaseUpdate (GremlinDatabaseID : Decoder)
    (remote : UpdateReplies) (d : ResourceData) : Run ResourceData Call :=
  match GremlinDatabaseID d.Id with
  | .error err => ⟨.failure (.decode err), d, []⟩
  | .ok id =>
    -- the statements from the re-read on
    let confirm (calls : List Call) : Run ResourceData Call :=
      let calls := calls ++ [.GetGremlinDatabase id.ResourceGroup id.Account id.Name]
      match remote.get.err with
      | some err => ⟨.failure (.errorf .makingGetRequest (some err)), d, calls⟩
      | none => resourceArmCosmosGremlinDatabaseRead GremlinDatabaseID remote.read d calls
    let calls :=
      [Call.CreateUpdateGremlinDatabase id.ResourceGroup id.Account id.Name id.Name none]
    match remote.createUpdate.err with
    | some err => ⟨.failure (.errorf .issuingCreateUpdate (some err)), d, calls⟩
    | none =>
      let calls := calls ++ [.WaitCreateUpdate]
      match remote.wait.err with
      | some err => ⟨.failure (.errorf .waitingCreateUpdate (some err)), d, calls⟩
      | none =>
        if d.HasChangeThroughput then
          let calls := calls ++
            [.UpdateGremlinDatabaseThroughput id.ResourceGroup id.Account id.Name d.GetThroughput]
          let throughputFuture := remote.throughputUpdate.val
          -- `if err != nil { if response.WasNotFound(...) { return ... } }`
          let rejected : Option GoError :=
            match remote.throughputUpdate.err with
            | some err => if response.WasNotFound throughputFuture.Response then some err else none
            | none => none
          match rejected with
          | some err => ⟨.failure (.errorf .settingThroughput (some err)), d, calls⟩
          | none =>
            -- `if err = throughputFuture.WaitForCompletionRef(ctx, client.Client); err != nil`
            let calls := calls ++ [.WaitThroughputUpdate]
            match remote.throughputUpdate.err with
            | some _ =>
              -- the request was refused with something else than NotFound: the future
              -- waited on is the one that refusal returned
              match remote.throughputWaitRefused with
              | .error err => ⟨.failure (.errorf .waitingThroughputUpdate (some err)), d, calls⟩
              | .fault => ⟨.nilDereference, d, calls⟩
            | none =>
              match remote.throughputWait.err with
              | some err => ⟨.failure (.errorf .waitingThroughputUpdate (some err)), d, calls⟩
              | none => confirm calls
        else
          confirm calls

/-- Go: `resourceArmCosmosGremlinDatabaseDelete`. -/
def resourceArmCosmosGremlinDatabaseDelete (GremlinDatabaseID : Decoder)
    (remote : DeleteReplies) (d : ResourceData) : Run ResourceData Call :=
  match GremlinDatabaseID d.Id with
  | .error err => ⟨.failure (.decode err), d, []⟩
  | .ok id =>
    let calls := [Call.DeleteGremlinDatabase id.ResourceGroup id.Account id.Name]
    let future := remote.delete.val
    -- `if err != nil { if !response.WasNotFound(future.Response()) { return ... } }`
    let rejected : Option GoError :=
      match remote.delete.err with
      | some err => if !response.WasNotFound future.Response then some err else none
      | none => none
    match rejected with
    | some err => ⟨.failure (.errorf .deleting (some err)), d, calls⟩
    | none =>
      let calls := calls ++ [.WaitDelete]
      match remote.wait.err with
      | some err => ⟨.failure (.errorf .waitingDelete (some err)), d, calls⟩
      | none => ⟨.success, d, calls⟩

end cosmos

/-! ## Migrate project -/

namespace migrate

/-- The locator `parse.MigrateProjectID` decodes an identifier to. -/
structure MigrateProjectId where
  ResourceGroup : String
  Name : String
  deriving Repr, DecidableEq

/-- The schema's attributes; a tag map is a list of key/value pairs. -/
structure Attributes where
  name : String
  location : String
  resource_group_name : String
  tags : List (String × String)
  deriving Repr, DecidableEq

/-- The `*schema.ResourceData` of one call: `Id` is `d.Id()`, `IsNewResource` is
`d.IsNewResource()`, `config` is what `d.Get` reads, `state` is what `d.Set` writes. -/
structure ResourceData where
  Id : String
  IsNewResource : Bool
  config : Attributes
  state : Attributes
  deriving Repr, DecidableEq

/-- The method `d.SetId(v)`. -/
def ResourceData.SetId (d : ResourceData) (v : String) : ResourceData :=
  { d with Id := v }

/-- The result `migrate.Project` of a get: pointers are options. -/
structure Project where
  Response : Response
  ID : Option String
  Tags : List (String × String)
  deriving Repr, DecidableEq

/-- The remote calls of the project client, with the arguments the verbs pass. -/
inductive Call where
  | Get (resourceGroup name : String)
  | Create (resourceGroup name : String) (location : String) (tags : List (String × String))
  | Delete (resourceGroup name : String) (etag : String)
  /-- The call `future.WaitForCompletionRef`, on the future of a delete. -/
  | WaitDelete
  deriving Repr, DecidableEq

/-- Whether a call is the create/update mutation request. -/
def Call.isMutation : Call → Bool
  | .Create .. => true
  | _ => false

/-- Replies to the calls of Read; `flattenAndSet` is the error `tags.FlattenAndSet`
returns (that helper is not among the sources). -/
structure ReadReplies where
  get : Reply Project
  flattenAndSet : Option GoError

/-- Replies to the calls of the create-or-update verb, in call order. -/
structure CreateUpdateReplies where
  existing : Reply Project
  create : Option GoError
  get : Reply Project
  read : ReadReplies

/-- Replies to the calls of Delete, in call order; the reply to the wait carries the
future as the wait leaves it. -/
structure DeleteReplies where
  delete : Reply Future
  wait : Reply Future

/-- The identifier parser `parse.MigrateProjectID` as the resource calls it (through
helpers of `azure` that are not among the sources): a parameter of every verb that
decodes. -/
abbrev Decoder := String → Except GoError MigrateProjectId

/-- Go: `resourceArmMigrateProjectRead`. -/
def resourceArmMigrateProjectRead (MigrateProjectID : Decoder)
    (remote : ReadReplies) (d : ResourceData) (calls : List Call) :
    Run ResourceData Call :=
  match MigrateProjectID d.Id with
  | .error err => ⟨.failure (.decode err), d, calls⟩
  | .ok id =>
    let calls := calls ++ [.Get id.ResourceGroup id.Name]
    let resp := remote.get.val
    match remote.get.err with
    | some err =>
      if utils.ResponseWasNotFound resp.Response then
        ⟨.success, d.SetId "", calls⟩
      else
        ⟨.failure (.errorf .reading (some err)), d, calls⟩
    | none =>
      let d := { d with state := { d.state with name := id.Name } }
      let d := { d with state := { d.state with resource_group_name := id.ResourceGroup } }
      -- `return tags.FlattenAndSet(d, resp.Tags)`
      match remote.flattenAndSet with
      | some err => ⟨.failure (.errorf .settingTags (some err)), d, calls⟩
      | none => ⟨.success, { d with state := { d.state with tags := resp.Tags } }, calls⟩

/-- Go: `resourceArmMigrateProjectCreateUpdate`. -/
def resourceArmMigrateProjectCreateUpdate (MigrateProjectID : Decoder)
    (remote : CreateUpdateReplies) (d : ResourceData) : Run ResourceData Call :=
  let name := d.config.name
  let resGroup := d.config.resource_group_name
  -- the statements after the import check, from `location := ...` on
  let proceed (calls : List Call) : Run ResourceData Call :=
    let location := d.config.location
    let t := d.config.tags
    let calls := calls ++ [.Create resGroup name location t]
    match remote.create with
    | some err => ⟨.failure (.errorf .creatingUpdating (some err)), d, calls⟩
    | none =>
      let calls := calls ++ [.Get resGroup name]
      let resp := remote.get.val
      match remote.get.err with
      | some err => ⟨.failure (.errorf .retrieving (some err)), d, calls⟩
      | none =>
        match resp.ID with
        | none => ⟨.failure (.errorf .cannotReadID none), d, calls⟩
        | some respID =>
          resourceArmMigrateProjectRead MigrateProjectID remote.read (d.SetId respID) calls
  if d.IsNewResource then
    let calls := [Call.Get resGroup name]
    let existing := remote.existing.val
    -- `if err != nil { if !utils.ResponseWasNotFound(existing.Response) { return ... } }`
    let failed : Option GoError :=
      match remote.existing.err with
      | some err => if !utils.ResponseWasNotFound existing.Response then some err else none
      | none => none
    match failed with
    | some err => ⟨.failure (.errorf .checkingPresence (some err)), d, calls⟩
    | none =>
      -- `if existing.ID != nil && *existing.ID != ""`
      match existing.ID with
      | some existingID =>
        if existingID != "" then
          ⟨.failure (.importAsExists "azurerm_migrate_project" existingID), d, calls⟩
        else
          proceed calls
      | none => proceed calls
  else
    proceed []

/-- Go: `resourceArmMigrateProjectDelete`. -/
def resourceArmMigrateProjectDelete (MigrateProjectID : Decoder)
    (remote : DeleteReplies) (d : ResourceData) : Run ResourceData Call :=
  match MigrateProjectID d.Id with
  | .error err => ⟨.failure (.decode err), d, []⟩
  | .ok id =>
    let etag := ""
    let calls := [Call.Delete id.ResourceGroup id.Name etag]
    let future := remote.delete.val
    match remote.delete.err with
    | some err =>
      if response.WasNotFound future.Response then
        ⟨.success, d, calls⟩
      else
        ⟨.failure (.errorf .deleting (some err)), d, calls⟩
    | none =>
      let calls := calls ++ [.WaitDelete]
      -- `WaitForCompletionRef` updates the future it is called on
      let future := remote.wait.val
      match remote.wait.err with
      | some err =>
        if response.WasNotFound future.Response then
          ⟨.success, d, calls⟩
        else
          ⟨.failure (.errorf .waitingDelete (some err)), d, calls⟩
      | none => ⟨.success, d, calls⟩

end migrate

/-! ## The `name` validator of the Migrate project schema -/

namespace validation

/-- A bracket expression: the inclusive character ranges it lists
(a single character is a range of one). -/
abbrev CharClass := List (Char × Char)

/-- Whether the class contains the character. -/
def CharClass.contains (cls : CharClass) (ch : Char) : Bool :=
  cls.any fun r => decide (r.1 ≤ ch) && decide (ch ≤ r.2)

/-- One piece of a pattern, a class with a counted repetition `[...]{min,max}`. -/
structure Piece where
  cls : CharClass
  min : Nat
  max : Nat

/-- Whether the whole text matches the pieces in sequence, that is the pattern
`^p1p2...$`: some count between `min` and `max` of leading characters is taken by the first
piece, all of them in its class, and the rest matches the remaining pieces. -/
def matchAnchored : List Piece → List Char → Bool
  | [], text => text.isEmpty
  | p :: rest, text =>
    (List.range (p.max - p.min + 1)).any fun k =>
      decide (p.min + k ≤ text.length) && (text.take (p.min + k)).all p.cls.contains &&
        matchAnchored rest (text.drop (p.min + k))

/-- The errors of the function `validation.StringMatch(r, message)` returns on a string
value: none when the value matches `r`, else one error quoting `message`. -/
def StringMatch (r : List Piece) (message : String) (v : String) : List String :=
  if matchAnchored r v.toList then [] else [message]

end validation

namespace migrate

/-- The pattern `^[a-zA-Z]{1}[-a-z0-9]{2,23}$` of the `name` attribute. -/
def nameRegexp : List validation.Piece :=
  [ ⟨[('a', 'z'), ('A', 'Z')], 1, 1⟩,
    ⟨[('-', '-'), ('a', 'z'), ('0', '9')], 2, 23⟩ ]

/-- The `ValidateFunc` of the `name` attribute in `resourceArmMigrateProject`. -/
def nameValidateFunc (v : String) : List String :=
  validation.StringMatch nameRegexp
    "Migrate Project name must be 3 - 24 characters long, start with a letter, contain only letters, numbers and -."
    v

/-- Whether the `name` validator accepts the value: it reports no error. -/
def nameAccepted (v : String) : Bool :=
  (nameValidateFunc v).isEmpty

/-- Whether a character is a letter, `a`..`z` or `A`..`Z`. -/
def isLetter (ch : Char) : Bool :=
  (decide ('a' ≤ ch) && decide (ch ≤ 'z')) || (decide ('A' ≤ ch) && decide (ch ≤ 'Z'))

/-- Whether a character is a digit, `0`..`9`. -/
def isNumber (ch : Char) : Bool :=
  decide ('0' ≤ ch) && decide (ch ≤ '9')

/-- The rule the validation message states, in its words: 3 - 24 characters long,
start with a letter, contain only letters, numbers and `-`. -/
def nameRuleOfMessage (v : String) : Bool :=
  decide (3 ≤ v.toList.length) && decide (v.toList.length ≤ 24) &&
    (match v.toList with
      | [] => false
      | ch :: _ => isLetter ch) &&
    v.toList.all fun ch => isLetter ch || isNumber ch || ch == '-'

/-- The rule the pattern implements: 3 - 24 characters long, start with a letter, and
every later character a lower-case letter, a digit or `-`. -/
def nameRuleOfPattern (v : String) : Bool :=
  decide (3 ≤ v.toList.length) && decide (v.toList.length ≤ 24) &&
    (match v.toList with
      | [] => false
      | ch :: rest =>
        isLetter ch &&
          rest.all fun c => (decide ('a' ≤ c) && decide (c ≤ 'z')) || isNumber c || c == '-')

end migrate

/-! ## The registration of the Azure Migrate service -/

namespace schema

/-- A `schema.Resource` as a registration sees it: the names of the functions bound to
its verbs, its default timeouts in minutes and the names of its attributes. -/
structure Resource where
  Create : String
  Read : String
  Update : String
  Delete : String
  CreateTimeout : Nat
  ReadTimeout : Nat
  UpdateTimeout : Nat
  DeleteTimeout : Nat
  Schema : List String
  deriving Repr, DecidableEq

end schema

namespace migrate

/-- Go: `resourceArmMigrateProject`, the Migrate Project resource. -/
def resourceArmMigrateProject : schema.Resource :=
  { Create := "resourceArmMigrateProjectCreateUpdate"
    Read := "resourceAArmMigrateProjectRead"
    Update := "resourceArmMigrateProjectCreateUpdate"
    Delete := "resourceArmMigrateProjectDelete"
    CreateTimeout := 30
    ReadTimeout := 5
    UpdateTimeout := 30
    DeleteTimeout := 30
    Schema := ["name", "location", "resource_group_name", "tags"] }

/-- Go: `type Registration struct{}`. -/
structure Registration where
  deriving Repr, DecidableEq

/-- Go: `Registration.Name`. -/
def Registration.Name (_r : Registration) : String :=
  "Azure Migrate"

/-- Go: `Registration.WebsiteCategories`. -/
def Registration.WebsiteCategories (_r : Registration) : List String :=
  ["Azure Migrate"]

/-- Go: `Registration.SupportedDataSources`; a Go map is a list of key/value pairs. -/
def Registration.SupportedDataSources (_r : Registration) : List (String × schema.Resource) :=
  []

/-- Go: `Registration.SupportedResources`; a Go map is a list of key/value pairs. -/
def Registration.SupportedResources (_r : Registration) : List (String × schema.Resource) :=
  [("azurerm_analysis_services_server", resourceArmMigrateProject)]

end migrate

/-! ## Sample inputs -/

namespace sample

/-- A decoder for sample runs: knows one database identifier, rejects everything else. -/
def gremlinDecoder : cosmos.Decoder := fun s =>
  if s = "/rg1/acct1/db1" then .ok ⟨"rg1", "acct1", "db1"⟩ else .error "unparseable"

/-- A decoder for sample runs: knows one project identifier, rejects everything else. -/
def migrateDecoder : migrate.Decoder := fun s =>
  if s = "/rg1/proj1" then .ok ⟨"rg1", "proj1"⟩ else .error "unparseable"

/-- A successful get reply carrying identifier `id`. -/
def gremlinFound (id : Option String) : Reply cosmos.GremlinDatabaseGetResults :=
  ⟨⟨some 200, id, some ⟨some ⟨some "db1"⟩⟩⟩, none⟩

/-- A failed get reply with HTTP status `status`. -/
def gremlinFailed (status : Response) : Reply cosmos.GremlinDatabaseGetResults :=
  ⟨⟨status, none, none⟩, some "request failed"⟩

/-- A successful throughput reply. -/
def throughputFound : Reply cosmos.ThroughputSettingsGetResults :=
  ⟨⟨some 200, some 400⟩, none⟩

/-- Replies of a Read that finds the database. -/
def gremlinReadOk : cosmos.ReadReplies :=
  ⟨gremlinFound (some "/rg1/acct1/db1"), throughputFound⟩

/-- An accepted request: a future with a 202 response, no error. -/
def accepted : Reply Future := ⟨⟨some 202⟩, none⟩

/-- A request refused synchronously with HTTP status `status`. -/
def refused (status : Response) : Reply Future := ⟨⟨status⟩, some "request refused"⟩

/-- A wait that ends in an error, the future's last response having status `status`. -/
def waitFailed (status : Response) : Reply Future := ⟨⟨status⟩, some "operation failed"⟩

/-- Resource data of a Gremlin database that is not yet created. -/
def gremlinNew : cosmos.ResourceData :=
  ⟨"", ⟨"db1", "rg1", "acct1", none⟩, false, ⟨"", "", "", none⟩⟩

/-- Resource data of an existing Gremlin database whose throughput changes to 400. -/
def gremlinExisting : cosmos.ResourceData :=
  ⟨"/rg1/acct1/db1", ⟨"db1", "rg1", "acct1", some 400⟩, true, ⟨"db1", "rg1", "acct1", none⟩⟩

/-- A successful project get reply carrying identifier `id`. -/
def projectFound (id : Option String) : Reply migrate.Project :=
  ⟨⟨some 200, id, []⟩, none⟩

/-- A failed project get reply with HTTP status `status`. -/
def projectFailed (status : Response) : Reply migrate.Project :=
  ⟨⟨status, none, []⟩, some "request failed"⟩

/-- Replies of a project Read that finds the project. -/
def projectReadOk : migrate.ReadReplies := ⟨projectFound (some "/rg1/proj1"), none⟩

/-- Resource data of a Migrate project that is not yet created. -/
def projectNew : migrate.ResourceData :=
  ⟨"", true, ⟨"proj1", "westeurope", "rg1", []⟩, ⟨"", "", "", []⟩⟩

/-- Resource data of an existing Migrate project. -/
def projectExisting : migrate.ResourceData :=
  ⟨"/rg1/proj1", false, ⟨"proj1", "westeurope", "rg1", []⟩, ⟨"proj1", "westeurope", "rg1", []⟩⟩

/-- Replies of a project create in which the import check finds a record that carries
no identifier and every later call succeeds. -/
def projectExistingWithoutID : migrate.CreateUpdateReplies :=
  ⟨projectFound none, none, projectFound (some "/rg1/proj1"), projectReadOk⟩

/-- Replies of a project create in which the import check finds a record with
identifier `/rg1/proj1`. -/
def projectExistingWithID : migrate.CreateUpdateReplies :=
  ⟨projectFound (some "/rg1/proj1"), none, projectFound (some "/rg1/proj1"), projectReadOk⟩

/-- Replies of a Gremlin create in which the import check finds a record with
identifier `/rg1/acct1/db1`. -/
def gremlinExistingWithID : cosmos.CreateReplies :=
  ⟨gremlinFound (some "/rg1/acct1/db1"), accepted, accepted,
    gremlinFound (some "/rg1/acct1/db1"), gremlinReadOk⟩

/-- Replies of a Gremlin update whose base update succeeds and whose throughput update
is refused with HTTP status `status`; a wait on the refused future ends in an error. -/
def gremlinThroughputRefused (status : Response) : cosmos.UpdateReplies :=
  ⟨accepted, accepted, refused status, accepted, .error "operation failed",
    gremlinFound (some "/rg1/acct1/db1"), gremlinReadOk⟩

/-- Replies of a Gremlin update whose base update succeeds and whose throughput update
is refused with HTTP status `status`; a wait on the refused future faults. -/
def gremlinThroughputRefusedFault (status : Response) : cosmos.UpdateReplies :=
  ⟨accepted, accepted, refused status, accepted, .fault,
    gremlinFound (some "/rg1/acct1/db1"), gremlinReadOk⟩

/-- Replies of a Gremlin update in which every call succeeds except the lookup of the
final Read, which fails with 404. -/
def gremlinGoneAtRead : cosmos.UpdateReplies :=
  ⟨accepted, accepted, accepted, accepted, .error "operation failed",
    gremlinFound (some "/rg1/acct1/db1"), ⟨gremlinFailed (some 404), throughputFound⟩⟩

/-- Replies of a project create-or-update in which every call succeeds. -/
def projectAllOk : migrate.CreateUpdateReplies :=
  ⟨projectFailed (some 404), none, projectFound (some "/rg1/proj1"), projectReadOk⟩

/-- Resource data of an existing Migrate project whose persisted identifier is corrupt. -/
def projectCorrupt : migrate.ResourceData :=
  ⟨"garbage", false, ⟨"proj1", "westeurope", "rg1", []⟩, ⟨"proj1", "westeurope", "rg1", []⟩⟩

/-- Resource data of an existing Gremlin database whose persisted identifier is corrupt. -/
def gremlinCorrupt : cosmos.ResourceData :=
  ⟨"garbage", ⟨"db1", "rg1", "acct1", some 400⟩, true, ⟨"db1", "rg1", "acct1", none⟩⟩

/-- Replies of a Gremlin create in which the mutation succeeds and the confirming lookup
returns a record with identifier `id`. -/
def gremlinCreatedWithID (id : Option String) : cosmos.CreateReplies :=
  ⟨gremlinFailed (some 404), accepted, accepted, gremlinFound id, gremlinReadOk⟩

/-- Replies of a project create in which the mutation succeeds and the confirming lookup
returns a record with identifier `id`. -/
def projectCreatedWithID (id : Option String) : migrate.CreateUpdateReplies :=
  ⟨projectFailed (some 404), none, projectFound id, projectReadOk⟩

/-- Replies of a Gremlin create in which the import check finds, without error, a record
that carries no identifier; every later call would succeed. -/
def gremlinExistingWithoutID : cosmos.CreateReplies :=
  ⟨gremlinFound none, accepted, accepted, gremlinFound (some "/rg1/acct1/db1"),
    gremlinReadOk⟩

end sample

open cosmos migrate validation

/-! ## The condition of the Gremlin import check -/

/-- On a nil pointer the condition `p == nil && *p == ""` dereferences nil. -/
@[simp] theorem nilAndEmpty_none : nilAndEmpty none = none := rfl

/-- On a non-nil pointer the condition `p == nil && *p == ""` is false, whatever the
string is. -/
@[simp] theorem nilAndEmpty_some (s : String) : nilAndEmpty (some s) = some false := rfl

/-! ## Read keeps the calls issued before it -/

/-- Gremlin Read only appends to the calls it is handed. -/
theorem gremlin_read_calls_extend (dec : cosmos.Decoder) (remote : cosmos.ReadReplies)
    (d : cosmos.ResourceData) (calls : List cosmos.Call) :
    ∃ more, (resourceArmCosmosGremlinDatabaseRead dec remote d calls).calls = calls ++ more := by
  cases h1 : dec d.Id <;> cases h2 : remote.get.err <;> cases h3 : remote.throughput.err <;>
    cases h4 : utils.ResponseWasNotFound remote.get.val.Response <;>
    cases h5 : utils.ResponseWasNotFound remote.throughput.val.Response <;>
    simp [resourceArmCosmosGremlinDatabaseRead, h1, h2, h3, h4, h5]

/-- Migrate Read only appends to the calls it is handed. -/
theorem migrate_read_calls_extend (dec : migrate.Decoder) (remote : migrate.ReadReplies)
    (d : migrate.ResourceData) (calls : List migrate.Call) :
    ∃ more, (resourceArmMigrateProjectRead dec remote d calls).calls = calls ++ more := by
  cases h1 : dec d.Id <;> cases h2 : remote.get.err <;> cases h3 : remote.flattenAndSet <;>
    cases h4 : utils.ResponseWasNotFound remote.get.val.Response <;>
    simp [resourceArmMigrateProjectRead, h1, h2, h3, h4]

/-- A call issued before Gremlin Read is still in the calls after it. -/
theorem gremlin_read_calls_mem (dec : cosmos.Decoder) (remote : cosmos.ReadReplies)
    (d : cosmos.ResourceData) (calls : List cosmos.Call) (c : cosmos.Call) (h : c ∈ calls) :
    c ∈ (resourceArmCosmosGremlinDatabaseRead dec remote d calls).calls := by
  obtain ⟨more, hmore⟩ := gremlin_read_calls_extend dec remote d calls
  rw [hmore]
  exact List.mem_append_left _ h

/-- A call issued before Migrate Read is still in the calls after it. -/
theorem migrate_read_calls_mem (dec : migrate.Decoder) (remote : migrate.ReadReplies)
    (d : migrate.ResourceData) (calls : List migrate.Call) (c : migrate.Call) (h : c ∈ calls) :
    c ∈ (resourceArmMigrateProjectRead dec remote d calls).calls := by
  obtain ⟨more, hmore⟩ := migrate_read_calls_extend dec remote d calls
  rw [hmore]
  exact List.mem_append_left _ h

/-- Gremlin Read leaves the identifier as it was, or clears it on a NotFound lookup and
returns success. -/
theorem gremlin_read_identifier (dec : cosmos.Decoder) (remote : cosmos.ReadReplies)
    (d : cosmos.ResourceData) (calls : List cosmos.Call) :
    (resourceArmCosmosGremlinDatabaseRead dec remote d calls).d.Id = d.Id ∨
    ((resourceArmCosmosGremlinDatabaseRead dec remote d calls).d.Id = "" ∧
      (resourceArmCosmosGremlinDatabaseRead dec remote d calls).result = .success ∧
      remote.get.err.isSome = true ∧
      utils.ResponseWasNotFound remote.get.val.Response = true) := by
  cases h1 : dec d.Id <;> cases h2 : remote.get.err <;> cases h3 : remote.throughput.err <;>
    cases h4 : utils.ResponseWasNotFound remote.get.val.Response <;>
    cases h5 : utils.ResponseWasNotFound remote.throughput.val.Response <;>
    cases h6 : remote.get.val.Properties <;>
    simp [resourceArmCosmosGremlinDatabaseRead, h1, h2, h3, h4, h5, h6,
      cosmos.ResourceData.SetId] <;>
    split <;> simp

/-- Migrate Read leaves the identifier as it was, or clears it on a NotFound lookup and
returns success. -/
theorem migrate_read_identifier (dec : migrate.Decoder) (remote : migrate.ReadReplies)
    (d : migrate.ResourceData) (calls : List migrate.Call) :
    (resourceArmMigrateProjectRead dec remote d calls).d.Id = d.Id ∨
    ((resourceArmMigrateProjectRead dec remote d calls).d.Id = "" ∧
      (resourceArmMigrateProjectRead dec remote d calls).result = .success ∧
      remote.get.err.isSome = true ∧
      utils.ResponseWasNotFound remote.get.val.Response = true) := by
  cases h1 : dec d.Id <;> cases h2 : remote.get.err <;> cases h3 : remote.flattenAndSet <;>
    cases h4 : utils.ResponseWasNotFound remote.get.val.Response <;>
    simp [resourceArmMigrateProjectRead, h1, h2, h3, h4, migrate.ResourceData.SetId]

/-! ## Create: the import-safety check -/

/-- C1, as stated, fails: a Migrate project create on a new resource whose import-safety
lookup returns, without error, a record that carries no identifier goes on to issue the
create mutation and returns success. -/
theorem migrate_create_existing_without_id_proceeds :
    sample.projectNew.IsNewResource = true ∧
    sample.projectExistingWithoutID.existing.err = none ∧
    (resourceArmMigrateProjectCreateUpdate sample.migrateDecoder
        sample.projectExistingWithoutID sample.projectNew).result = .success ∧
    (resourceArmMigrateProjectCreateUpdate sample.migrateDecoder
        sample.projectExistingWithoutID sample.projectNew).calls =
      [.Get "rg1" "proj1", .Create "rg1" "proj1" "westeurope" [], .Get "rg1" "proj1",
        .Get "rg1" "proj1"] := by
  decide

/-- C1, amended: when the import-safety lookup is performed and returns, without error,
a record that carries a non-empty identifier, Create (Gremlin database, Migrate project)
returns the already-exists (requires import) error carrying that identifier, its only
remote call is the lookup, and the resource data is untouched; a Migrate project create
whose lookup returns a record with an absent or empty identifier goes on to issue the
create mutation. -/
theorem create_existing_record_requires_import :
    (∀ (dec : cosmos.Decoder) (remote : cosmos.CreateReplies) (d : cosmos.ResourceData)
        (id : String),
        remote.existing.err = none → remote.existing.val.ID = some id → id ≠ "" →
        (resourceArmCosmosGremlinDatabaseCreate dec true remote d).result
            = .failure (.importAsExists "azurerm_cosmosdb_gremlin_database" id) ∧
          (resourceArmCosmosGremlinDatabaseCreate dec true remote d).calls
            = [.GetGremlinDatabase d.config.resource_group_name d.config.account_name
                d.config.name] ∧
          (resourceArmCosmosGremlinDatabaseCreate dec true remote d).d = d) ∧
    (∀ (dec : migrate.Decoder) (remote : migrate.CreateUpdateReplies)
        (d : migrate.ResourceData) (id : String),
        d.IsNewResource = true → remote.existing.err = none →
        remote.existing.val.ID = some id → id ≠ "" →
        (resourceArmMigrateProjectCreateUpdate dec remote d).result
            = .failure (.importAsExists "azurerm_migrate_project" id) ∧
          (resourceArmMigrateProjectCreateUpdate dec remote d).calls
            = [.Get d.config.resource_group_name d.config.name] ∧
          (resourceArmMigrateProjectCreateUpdate dec remote d).d = d) ∧
    (∀ (dec : migrate.Decoder) (remote : migrate.CreateUpdateReplies)
        (d : migrate.ResourceData),
        d.IsNewResource = true → remote.existing.err = none →
        (remote.existing.val.ID = none ∨ remote.existing.val.ID = some "") →
        migrate.Call.Create d.config.resource_group_name d.config.name d.config.location
            d.config.tags
          ∈ (resourceArmMigrateProjectCreateUpdate dec remote d).calls) := by
  refine ⟨?_, ?_, ?_⟩
  · intro dec remote d id herr hid _
    simp [resourceArmCosmosGremlinDatabaseCreate, herr, hid]
  · intro dec remote d id hnew herr hid hne
    simp [resourceArmMigrateProjectCreateUpdate, hnew, herr, hid, hne]
  · intro dec remote d hnew herr hid
    rcases hid with hid | hid <;>
      cases h1 : remote.create <;> cases h2 : remote.get.err <;>
      cases h3 : remote.get.val.ID <;>
      simp [resourceArmMigrateProjectCreateUpdate, hnew, herr, hid, h1, h2, h3] <;>
      exact migrate_read_calls_mem _ _ _ _ _ (by simp)

/-- C1, amended, at sample inputs: both resources refuse to create over a found record
that carries a non-empty identifier. -/
theorem create_existing_record_requires_import_witness :
    (resourceArmCosmosGremlinDatabaseCreate sample.gremlinDecoder true
        sample.gremlinExistingWithID sample.gremlinNew).result
      = .failure (.importAsExists "azurerm_cosmosdb_gremlin_database" "/rg1/acct1/db1") ∧
    (resourceArmMigrateProjectCreateUpdate sample.migrateDecoder
        sample.projectExistingWithID sample.projectNew).result
      = .failure (.importAsExists "azurerm_migrate_project" "/rg1/proj1") :=
  ⟨(create_existing_record_requires_import.1 sample.gremlinDecoder
      sample.gremlinExistingWithID sample.gremlinNew "/rg1/acct1/db1" rfl rfl
      (by decide)).1,
   (create_existing_record_requires_import.2.1 sample.migrateDecoder
      sample.projectExistingWithID sample.projectNew "/rg1/proj1" rfl rfl rfl
      (by decide)).1⟩

/-! ## Read: drift correction -/

/-- C2: for a Read (Gremlin database, Migrate project) whose identifier decodes and
whose primary lookup fails, a NotFound failure makes Read return no error with the
identifier set to the empty string, and any other failure makes Read return an error with
the resource data, identifier included, unchanged. -/
theorem read_not_found_clears_identifier :
    (∀ (dec : cosmos.Decoder) (remote : cosmos.ReadReplies) (d : cosmos.ResourceData)
        (calls : List cosmos.Call) (id : GremlinDatabaseId) (err : GoError),
        dec d.Id = .ok id → remote.get.err = some err →
        (utils.ResponseWasNotFound remote.get.val.Response = true →
          (resourceArmCosmosGremlinDatabaseRead dec remote d calls).result = .success ∧
          (resourceArmCosmosGremlinDatabaseRead dec remote d calls).d.Id = "") ∧
        (utils.ResponseWasNotFound remote.get.val.Response = false →
          (resourceArmCosmosGremlinDatabaseRead dec remote d calls).result
            = .failure (.errorf .reading (some err)) ∧
          (resourceArmCosmosGremlinDatabaseRead dec remote d calls).d = d)) ∧
    (∀ (dec : migrate.Decoder) (remote : migrate.ReadReplies) (d : migrate.ResourceData)
        (calls : List migrate.Call) (id : MigrateProjectId) (err : GoError),
        dec d.Id = .ok id → remote.get.err = some err →
        (utils.ResponseWasNotFound remote.get.val.Response = true →
          (resourceArmMigrateProjectRead dec remote d calls).result = .success ∧
          (resourceArmMigrateProjectRead dec remote d calls).d.Id = "") ∧
        (utils.ResponseWasNotFound remote.get.val.Response = false →
          (resourceArmMigrateProjectRead dec remote d calls).result
            = .failure (.errorf .reading (some err)) ∧
          (resourceArmMigrateProjectRead dec remote d calls).d = d)) := by
  refine ⟨?_, ?_⟩
  · intro dec remote d calls id err hdec herr
    constructor <;> intro hnf <;>
      simp [resourceArmCosmosGremlinDatabaseRead, hdec, herr, hnf, cosmos.ResourceData.SetId]
  · intro dec remote d calls id err hdec herr
    constructor <;> intro hnf <;>
      simp [resourceArmMigrateProjectRead, hdec, herr, hnf, migrate.ResourceData.SetId]

/-- C2 at sample inputs: a 404 on the lookup clears the identifier without error, a 500
is an error and keeps it. -/
theorem read_not_found_clears_identifier_witness :
    ((resourceArmCosmosGremlinDatabaseRead sample.gremlinDecoder
          ⟨sample.gremlinFailed (some 404), sample.throughputFound⟩
          sample.gremlinExisting []).result = .success ∧
      (resourceArmCosmosGremlinDatabaseRead sample.gremlinDecoder
          ⟨sample.gremlinFailed (some 404), sample.throughputFound⟩
          sample.gremlinExisting []).d.Id = "") ∧
    ((resourceArmMigrateProjectRead sample.migrateDecoder
          ⟨sample.projectFailed (some 500), none⟩ sample.projectExisting []).result
        = .failure (.errorf .reading (some "request failed")) ∧
      (resourceArmMigrateProjectRead sample.migrateDecoder
          ⟨sample.projectFailed (some 500), none⟩ sample.projectExisting []).d
        = sample.projectExisting) :=
  ⟨(read_not_found_clears_identifier.1 sample.gremlinDecoder
      ⟨sample.gremlinFailed (some 404), sample.throughputFound⟩ sample.gremlinExisting []
      ⟨"rg1", "acct1", "db1"⟩ "request failed" rfl rfl).1 rfl,
   (read_not_found_clears_identifier.2 sample.migrateDecoder
      ⟨sample.projectFailed (some 500), none⟩ sample.projectExisting []
      ⟨"rg1", "proj1"⟩ "request failed" rfl rfl).2 rfl⟩

/-! ## Delete: NotFound -/

/-- Migrate project Delete with a decodable identifier returns success when the delete
request fails synchronously with NotFound, and when the request is accepted and the wait
fails with NotFound. -/
theorem migrate_delete_not_found_succeeds (dec : migrate.Decoder)
    (remote : migrate.DeleteReplies) (d : migrate.ResourceData) (id : MigrateProjectId)
    (hdec : dec d.Id = .ok id)
    (hnf : (remote.delete.err.isSome = true ∧
              response.WasNotFound remote.delete.val.Response = true) ∨
           (remote.delete.err = none ∧ remote.wait.err.isSome = true ∧
              response.WasNotFound remote.wait.val.Response = true)) :
    (resourceArmMigrateProjectDelete dec remote d).result = .success := by
  rcases hnf with ⟨h1, h2⟩ | ⟨h1, h2, h3⟩
  · cases h : remote.delete.err
    · simp [h] at h1
    · simp [resourceArmMigrateProjectDelete, hdec, h, h2]
  · cases h : remote.wait.err
    · simp [h] at h2
    · simp [resourceArmMigrateProjectDelete, hdec, h, h1, h3]

/-- Gremlin database Delete with a decodable identifier, once the delete request is
accepted or refused with NotFound, returns whatever the wait returns: an error of the
wait, NotFound or not, is an error of Delete. -/
theorem gremlin_delete_result_follows_wait (dec : cosmos.Decoder)
    (remote : cosmos.DeleteReplies) (d : cosmos.ResourceData) (id : GremlinDatabaseId)
    (hdec : dec d.Id = .ok id)
    (hreq : remote.delete.err = none ∨
      response.WasNotFound remote.delete.val.Response = true) :
    (resourceArmCosmosGremlinDatabaseDelete dec remote d).result =
      match remote.wait.err with
      | some err => .failure (.errorf .waitingDelete (some err))
      | none => .success := by
  rcases hreq with h | h
  · cases hw : remote.wait.err <;> simp [resourceArmCosmosGremlinDatabaseDelete, hdec, h, hw]
  · cases hd : remote.delete.err <;> cases hw : remote.wait.err <;>
      simp [resourceArmCosmosGremlinDatabaseDelete, hdec, h, hd, hw]

/-- C3 at its failing inputs: Gremlin database Delete returns an error when the accepted
delete's wait fails with NotFound, and when the request is refused with NotFound and the
wait on that future fails; Migrate project Delete returns success on the same replies. -/
theorem gremlin_delete_not_found_is_error :
    (resourceArmCosmosGremlinDatabaseDelete sample.gremlinDecoder
        ⟨sample.accepted, sample.waitFailed (some 404)⟩ sample.gremlinExisting).result
      = .failure (.errorf .waitingDelete (some "operation failed")) ∧
    (resourceArmCosmosGremlinDatabaseDelete sample.gremlinDecoder
        ⟨sample.refused (some 404), sample.waitFailed (some 404)⟩ sample.gremlinExisting).result
      = .failure (.errorf .waitingDelete (some "operation failed")) ∧
    (resourceArmMigrateProjectDelete sample.migrateDecoder
        ⟨sample.accepted, sample.waitFailed (some 404)⟩ sample.projectExisting).result
      = .success ∧
    (resourceArmMigrateProjectDelete sample.migrateDecoder
        ⟨sample.refused (some 404), sample.waitFailed (some 404)⟩ sample.projectExisting).result
      = .success := by
  decide

/-! ## Update: throughput not provisioned -/

/-- C4, as stated, fails: a Gremlin database Update whose throughput changed, whose base
update succeeded and whose throughput update is refused with NotFound returns an error,
not success. -/
theorem gremlin_update_throughput_not_found_fails :
    sample.gremlinExisting.HasChangeThroughput = true ∧
    (resourceArmCosmosGremlinDatabaseUpdate sample.gremlinDecoder
        (sample.gremlinThroughputRefused (some 404)) sample.gremlinExisting).result
      = .failure (.errorf .settingThroughput (some "request refused")) := by
  decide

/-- C4, amended: a Gremlin database Update whose identifier decodes, whose throughput
changed, whose base create/update mutation succeeded and whose throughput update is
refused with NotFound fails the call with the setting-throughput error; it neither awaits
the throughput operation nor re-reads, and it leaves the resource data, the stored
throughput attribute included, as it was. -/
theorem gremlin_update_throughput_not_provisioned (dec : cosmos.Decoder)
    (remote : cosmos.UpdateReplies) (d : cosmos.ResourceData) (id : GremlinDatabaseId)
    (err : GoError)
    (hdec : dec d.Id = .ok id)
    (hchange : d.HasChangeThroughput = true)
    (hbase : remote.createUpdate.err = none ∧ remote.wait.err = none)
    (hrej : remote.throughputUpdate.err = some err)
    (hnf : response.WasNotFound remote.throughputUpdate.val.Response = true) :
    (resourceArmCosmosGremlinDatabaseUpdate dec remote d).result
      = .failure (.errorf .settingThroughput (some err)) ∧
    (resourceArmCosmosGremlinDatabaseUpdate dec remote d).calls
      = [.CreateUpdateGremlinDatabase id.ResourceGroup id.Account id.Name id.Name none,
         .WaitCreateUpdate,
         .UpdateGremlinDatabaseThroughput id.ResourceGroup id.Account id.Name d.GetThroughput] ∧
    (resourceArmCosmosGremlinDatabaseUpdate dec remote d).d = d ∧
    (resourceArmCosmosGremlinDatabaseUpdate dec remote d).d.state.throughput
      = d.state.throughput := by
  simp [resourceArmCosmosGremlinDatabaseUpdate, hdec, hchange, hbase.1, hbase.2, hrej, hnf]

/-- C4, amended, at a sample input: throughput 400 requested, update refused with 404;
the stored throughput stays unset. -/
theorem gremlin_update_throughput_not_provisioned_witness :
    (resourceArmCosmosGremlinDatabaseUpdate sample.gremlinDecoder
        (sample.gremlinThroughputRefused (some 404)) sample.gremlinExisting).result
      = .failure (.errorf .settingThroughput (some "request refused")) ∧
    (resourceArmCosmosGremlinDatabaseUpdate sample.gremlinDecoder
        (sample.gremlinThroughputRefused (some 404)) sample.gremlinExisting).d.state.throughput
      = none :=
  have h := gremlin_update_throughput_not_provisioned sample.gremlinDecoder
    (sample.gremlinThroughputRefused (some 404)) sample.gremlinExisting
    ⟨"rg1", "acct1", "db1"⟩ "request refused" rfl rfl ⟨rfl, rfl⟩ rfl rfl
  ⟨h.1, h.2.2.2⟩

/-! ## Update: a persisted identifier that does not decode -/

/-- C5, as stated, fails: a Migrate project create-or-update on an existing resource
whose persisted identifier does not decode returns no decode error; it issues the create
mutation and two lookups and returns success. -/
theorem migrate_update_corrupt_identifier_proceeds :
    sample.projectCorrupt.IsNewResource = false ∧
    sample.migrateDecoder sample.projectCorrupt.Id = .error "unparseable" ∧
    (resourceArmMigrateProjectCreateUpdate sample.migrateDecoder sample.projectAllOk
        sample.projectCorrupt).result = .success ∧
    (resourceArmMigrateProjectCreateUpdate sample.migrateDecoder sample.projectAllOk
        sample.projectCorrupt).calls
      = [.Create "rg1" "proj1" "westeurope" [], .Get "rg1" "proj1", .Get "rg1" "proj1"] := by
  refine ⟨by decide, rfl, by decide, by decide⟩

/-- C5, amended: a Gremlin database Update whose persisted identifier does not decode
returns the decode error, issues no remote call and leaves the resource data as it was;
a Migrate project create-or-update on an existing resource never decodes the persisted
identifier before acting: its first remote call is the create mutation for the configured
name and resource group, whatever the persisted identifier is. -/
theorem update_undecodable_identifier :
    (∀ (dec : cosmos.Decoder) (remote : cosmos.UpdateReplies) (d : cosmos.ResourceData)
        (err : GoError),
        dec d.Id = .error err →
        (resourceArmCosmosGremlinDatabaseUpdate dec remote d).result = .failure (.decode err) ∧
        (resourceArmCosmosGremlinDatabaseUpdate dec remote d).calls = [] ∧
        (resourceArmCosmosGremlinDatabaseUpdate dec remote d).d = d) ∧
    (∀ (dec : migrate.Decoder) (remote : migrate.CreateUpdateReplies)
        (d : migrate.ResourceData),
        d.IsNewResource = false →
        (resourceArmMigrateProjectCreateUpdate dec remote d).calls.head?
          = some (.Create d.config.resource_group_name d.config.name d.config.location
              d.config.tags)) := by
  refine ⟨?_, ?_⟩
  · intro dec remote d err hdec
    simp [resourceArmCosmosGremlinDatabaseUpdate, hdec]
  · intro dec remote d hnew
    cases h1 : remote.create <;> cases h2 : remote.get.err <;>
      cases h3 : remote.get.val.ID <;>
      simp [resourceArmMigrateProjectCreateUpdate, hnew, h1, h2, h3]
    obtain ⟨more, hmore⟩ := migrate_read_calls_extend dec remote.read
      (d.SetId ‹String›) [.Create d.config.resource_group_name d.config.name
        d.config.location d.config.tags, .Get d.config.resource_group_name d.config.name]
    rw [hmore]
    simp

/-- C5, amended, at sample inputs: the Gremlin update on a corrupt identifier stops with
the decode error before any call; the Migrate one starts with the create mutation. -/
theorem update_undecodable_identifier_witness :
    ((resourceArmCosmosGremlinDatabaseUpdate sample.gremlinDecoder
          (sample.gremlinThroughputRefused (some 404)) sample.gremlinCorrupt).result
        = .failure (.decode "unparseable") ∧
      (resourceArmCosmosGremlinDatabaseUpdate sample.gremlinDecoder
          (sample.gremlinThroughputRefused (some 404)) sample.gremlinCorrupt).calls = [] ∧
      (resourceArmCosmosGremlinDatabaseUpdate sample.gremlinDecoder
          (sample.gremlinThroughputRefused (some 404)) sample.gremlinCorrupt).d
        = sample.gremlinCorrupt) ∧
    (resourceArmMigrateProjectCreateUpdate sample.migrateDecoder sample.projectAllOk
        sample.projectCorrupt).calls.head?
      = some (.Create "rg1" "proj1" "westeurope" []) :=
  ⟨update_undecodable_identifier.1 sample.gremlinDecoder
      (sample.gremlinThroughputRefused (some 404)) sample.gremlinCorrupt "unparseable" rfl,
   update_undecodable_identifier.2 sample.migrateDecoder sample.projectAllOk
      sample.projectCorrupt rfl⟩

/-! ## Update: the identifier after a successful call -/

/-- C6, as stated, fails: a Gremlin database Update in which every call succeeds except
the lookup of the final Read, which is NotFound, returns success with the identifier
cleared; a Migrate project create-or-update on an existing resource returns success with
the identifier replaced by the one the confirming lookup reports. -/
theorem update_success_changes_identifier :
    ((resourceArmCosmosGremlinDatabaseUpdate sample.gremlinDecoder sample.gremlinGoneAtRead
          sample.gremlinExisting).result = .success ∧
      sample.gremlinExisting.Id = "/rg1/acct1/db1" ∧
      (resourceArmCosmosGremlinDatabaseUpdate sample.gremlinDecoder sample.gremlinGoneAtRead
          sample.gremlinExisting).d.Id = "") ∧
    ((resourceArmMigrateProjectCreateUpdate sample.migrateDecoder sample.projectAllOk
          sample.projectCorrupt).result = .success ∧
      sample.projectCorrupt.Id = "garbage" ∧
      (resourceArmMigrateProjectCreateUpdate sample.migrateDecoder sample.projectAllOk
          sample.projectCorrupt).d.Id = "/rg1/proj1") := by
  decide

/-- C6, amended: after a Gremlin database Update that returns success the persisted
identifier is string-equal to the one before the call, or it is the empty string and the
lookup of the final Read failed with NotFound; after a Migrate project create-or-update
that returns success the persisted identifier is the identifier the confirming lookup
reported, or it is the empty string and the lookup of the final Read failed with
NotFound. -/
theorem update_success_identifier :
    (∀ (dec : cosmos.Decoder) (remote : cosmos.UpdateReplies) (d : cosmos.ResourceData),
        (resourceArmCosmosGremlinDatabaseUpdate dec remote d).result = .success →
        (resourceArmCosmosGremlinDatabaseUpdate dec remote d).d.Id = d.Id ∨
        ((resourceArmCosmosGremlinDatabaseUpdate dec remote d).d.Id = "" ∧
          remote.read.get.err.isSome = true ∧
          utils.ResponseWasNotFound remote.read.get.val.Response = true)) ∧
    (∀ (dec : migrate.Decoder) (remote : migrate.CreateUpdateReplies)
        (d : migrate.ResourceData),
        (resourceArmMigrateProjectCreateUpdate dec remote d).result = .success →
        remote.get.val.ID = some (resourceArmMigrateProjectCreateUpdate dec remote d).d.Id ∨
        ((resourceArmMigrateProjectCreateUpdate dec remote d).d.Id = "" ∧
          remote.read.get.err.isSome = true ∧
          utils.ResponseWasNotFound remote.read.get.val.Response = true)) := by
  refine ⟨?_, ?_⟩
  · intro dec remote d
    have hread := fun calls => gremlin_read_identifier dec remote.read d calls
    cases h1 : dec d.Id <;> cases h2 : remote.createUpdate.err <;>
      cases h3 : remote.wait.err <;> cases h4 : d.HasChangeThroughput <;>
      cases h5 : remote.throughputUpdate.err <;> cases h6 : remote.throughputWait.err <;>
      cases h7 : remote.get.err <;>
      cases h8 : response.WasNotFound remote.throughputUpdate.val.Response <;>
      cases h9 : remote.throughputWaitRefused <;>
      simp [resourceArmCosmosGremlinDatabaseUpdate, h1, h2, h3, h4, h5, h6, h7, h8, h9] <;>
      intro _ <;>
      (rcases hread _ with h | ⟨h, _, h', h''⟩
       · exact Or.inl h
       · exact Or.inr ⟨h, by simpa using h', h''⟩)
  · intro dec remote d
    have hread := fun respID calls =>
      migrate_read_identifier dec remote.read (d.SetId respID) calls
    cases h0 : d.IsNewResource <;> cases h1 : remote.existing.err <;>
      cases h2 : remote.existing.val.ID <;>
      cases h3 : utils.ResponseWasNotFound remote.existing.val.Response <;>
      cases h4 : remote.create <;> cases h5 : remote.get.err <;>
      cases h6 : remote.get.val.ID <;>
      simp [resourceArmMigrateProjectCreateUpdate, h0, h1, h2, h3, h4, h5, h6] <;>
      (try split) <;> (try simp) <;>
      intro _ <;>
      (rcases hread _ _ with h | ⟨h, _, h', h''⟩
       · exact Or.inl (by simpa [migrate.ResourceData.SetId] using h.symm)
       · exact Or.inr ⟨h, by simpa using h', h''⟩)

/-- C6, amended, at sample inputs: the Gremlin update that finds the database gone at
the final Read ends with the identifier cleared; the Migrate update ends with the
identifier the confirming lookup reported. -/
theorem update_success_identifier_witness :
    ((resourceArmCosmosGremlinDatabaseUpdate sample.gremlinDecoder sample.gremlinGoneAtRead
          sample.gremlinExisting).d.Id = sample.gremlinExisting.Id ∨
      ((resourceArmCosmosGremlinDatabaseUpdate sample.gremlinDecoder sample.gremlinGoneAtRead
          sample.gremlinExisting).d.Id = "" ∧
        sample.gremlinGoneAtRead.read.get.err.isSome = true ∧
        utils.ResponseWasNotFound sample.gremlinGoneAtRead.read.get.val.Response = true)) ∧
    (sample.projectAllOk.get.val.ID
        = some (resourceArmMigrateProjectCreateUpdate sample.migrateDecoder
            sample.projectAllOk sample.projectExisting).d.Id ∨
      ((resourceArmMigrateProjectCreateUpdate sample.migrateDecoder sample.projectAllOk
          sample.projectExisting).d.Id = "" ∧
        sample.projectAllOk.read.get.err.isSome = true ∧
        utils.ResponseWasNotFound sample.projectAllOk.read.get.val.Response = true)) :=
  ⟨update_success_identifier.1 sample.gremlinDecoder sample.gremlinGoneAtRead
      sample.gremlinExisting (by decide),
   update_success_identifier.2 sample.migrateDecoder sample.projectAllOk
      sample.projectExisting (by decide)⟩

/-! ## Create: a confirming lookup without identifier -/

/-- C7: for every Create (Gremlin database, Migrate project) that issued its mutation,
whose mutation completed without error and whose confirming lookup returns, without
error, a record whose identifier is absent or the empty string, Create returns an error;
when the identifier is absent the persisted identifier is the one before the call.  The
identifier parser, which is not among the sources, is any decoder that rejects the empty
string. -/
theorem create_without_identifier_fails :
    (∀ (dec : cosmos.Decoder) (shouldImport : Bool) (remote : cosmos.CreateReplies)
        (d : cosmos.ResourceData),
        (∃ err, dec "" = .error err) →
        (resourceArmCosmosGremlinDatabaseCreate dec shouldImport remote d).calls.any
          cosmos.Call.isMutation = true →
        remote.createUpdate.err = none → remote.wait.err = none →
        remote.get.err = none →
        (remote.get.val.ID = none ∨ remote.get.val.ID = some "") →
        (∃ e, (resourceArmCosmosGremlinDatabaseCreate dec shouldImport remote d).result
          = .failure e) ∧
        (remote.get.val.ID = none →
          (resourceArmCosmosGremlinDatabaseCreate dec shouldImport remote d).d.Id = d.Id)) ∧
    (∀ (dec : migrate.Decoder) (remote : migrate.CreateUpdateReplies)
        (d : migrate.ResourceData),
        (∃ err, dec "" = .error err) →
        (resourceArmMigrateProjectCreateUpdate dec remote d).calls.any
          migrate.Call.isMutation = true →
        remote.create = none → remote.get.err = none →
        (remote.get.val.ID = none ∨ remote.get.val.ID = some "") →
        (∃ e, (resourceArmMigrateProjectCreateUpdate dec remote d).result = .failure e) ∧
        (remote.get.val.ID = none →
          (resourceArmMigrateProjectCreateUpdate dec remote d).d.Id = d.Id)) := by
  refine ⟨?_, ?_⟩
  · rintro dec shouldImport remote d ⟨err, hempty⟩ hmut hcu hwait hget hid
    cases h0 : shouldImport <;> cases h1 : remote.existing.err <;>
      cases h2 : remote.existing.val.ID <;>
      cases h3 : utils.ResponseWasNotFound remote.existing.val.Response <;>
      rcases hid with hid | hid <;>
      simp [resourceArmCosmosGremlinDatabaseCreate, resourceArmCosmosGremlinDatabaseRead,
        cosmos.ResourceData.SetId, cosmos.Call.isMutation,
        h0, h1, h2, h3, hid, hcu, hwait, hget, hempty] at hmut ⊢
  · rintro dec remote d ⟨err, hempty⟩ hmut hcreate hget hid
    cases h0 : d.IsNewResource <;> cases h1 : remote.existing.err <;>
      cases h2 : remote.existing.val.ID <;>
      cases h3 : utils.ResponseWasNotFound remote.existing.val.Response <;>
      rcases hid with hid | hid <;>
      simp [resourceArmMigrateProjectCreateUpdate, resourceArmMigrateProjectRead,
        migrate.ResourceData.SetId, migrate.Call.isMutation,
        h0, h1, h2, h3, hid, hcreate, hget, hempty] at hmut ⊢ <;>
      split_ifs <;> simp

/-- C7 at sample inputs: a Gremlin create whose confirming lookup carries no identifier
fails and keeps the identifier; a Migrate create whose confirming lookup carries the
empty identifier fails. -/
theorem create_without_identifier_fails_witness :
    ((∃ e, (resourceArmCosmosGremlinDatabaseCreate sample.gremlinDecoder true
          (sample.gremlinCreatedWithID none) sample.gremlinNew).result = .failure e) ∧
      (resourceArmCosmosGremlinDatabaseCreate sample.gremlinDecoder true
          (sample.gremlinCreatedWithID none) sample.gremlinNew).d.Id = sample.gremlinNew.Id) ∧
    (∃ e, (resourceArmMigrateProjectCreateUpdate sample.migrateDecoder
        (sample.projectCreatedWithID (some "")) sample.projectNew).result = .failure e) :=
  have hg := create_without_identifier_fails.1 sample.gremlinDecoder true
    (sample.gremlinCreatedWithID none) sample.gremlinNew ⟨"unparseable", rfl⟩
    (by decide) rfl rfl rfl (Or.inl rfl)
  have hm := create_without_identifier_fails.2 sample.migrateDecoder
    (sample.projectCreatedWithID (some "")) sample.projectNew ⟨"unparseable", rfl⟩
    (by decide) rfl rfl (Or.inr rfl)
  ⟨⟨hg.1, hg.2 rfl⟩, hm.1⟩

/-! ## Read and Delete: a persisted identifier that does not decode -/

/-- C8: a Read or Delete (Gremlin database, Migrate project) whose persisted identifier
fails to decode returns the decode error, issues no remote call, and leaves the resource
data unchanged: the identifier is not cleared. -/
theorem read_delete_undecodable_identifier :
    (∀ (dec : cosmos.Decoder) (d : cosmos.ResourceData) (err : GoError),
        dec d.Id = .error err →
        (∀ (remote : cosmos.ReadReplies) (calls : List cosmos.Call),
          (resourceArmCosmosGremlinDatabaseRead dec remote d calls).result
            = .failure (.decode err) ∧
          (resourceArmCosmosGremlinDatabaseRead dec remote d calls).calls = calls ∧
          (resourceArmCosmosGremlinDatabaseRead dec remote d calls).d = d) ∧
        (∀ (remote : cosmos.DeleteReplies),
          (resourceArmCosmosGremlinDatabaseDelete dec remote d).result
            = .failure (.decode err) ∧
          (resourceArmCosmosGremlinDatabaseDelete dec remote d).calls = [] ∧
          (resourceArmCosmosGremlinDatabaseDelete dec remote d).d = d)) ∧
    (∀ (dec : migrate.Decoder) (d : migrate.ResourceData) (err : GoError),
        dec d.Id = .error err →
        (∀ (remote : migrate.ReadReplies) (calls : List migrate.Call),
          (resourceArmMigrateProjectRead dec remote d calls).result
            = .failure (.decode err) ∧
          (resourceArmMigrateProjectRead dec remote d calls).calls = calls ∧
          (resourceArmMigrateProjectRead dec remote d calls).d = d) ∧
        (∀ (remote : migrate.DeleteReplies),
          (resourceArmMigrateProjectDelete dec remote d).result
            = .failure (.decode err) ∧
          (resourceArmMigrateProjectDelete dec remote d).calls = [] ∧
          (resourceArmMigrateProjectDelete dec remote d).d = d)) := by
  refine ⟨?_, ?_⟩
  · intro dec d err hdec
    refine ⟨fun remote calls => ?_, fun remote => ?_⟩
    · simp [resourceArmCosmosGremlinDatabaseRead, hdec]
    · simp [resourceArmCosmosGremlinDatabaseDelete, hdec]
  · intro dec d err hdec
    refine ⟨fun remote calls => ?_, fun remote => ?_⟩
    · simp [resourceArmMigrateProjectRead, hdec]
    · simp [resourceArmMigrateProjectDelete, hdec]

/-- C8 at sample inputs: Read and Delete on a corrupt identifier stop with the decode
error, no call issued, the identifier kept. -/
theorem read_delete_undecodable_identifier_witness :
    ((resourceArmCosmosGremlinDatabaseRead sample.gremlinDecoder sample.gremlinReadOk
          sample.gremlinCorrupt []).result = .failure (.decode "unparseable") ∧
      (resourceArmCosmosGremlinDatabaseRead sample.gremlinDecoder sample.gremlinReadOk
          sample.gremlinCorrupt []).calls = [] ∧
      (resourceArmCosmosGremlinDatabaseRead sample.gremlinDecoder sample.gremlinReadOk
          sample.gremlinCorrupt []).d = sample.gremlinCorrupt) ∧
    ((resourceArmMigrateProjectDelete sample.migrateDecoder
          ⟨sample.accepted, sample.accepted⟩ sample.projectCorrupt).result
        = .failure (.decode "unparseable") ∧
      (resourceArmMigrateProjectDelete sample.migrateDecoder
          ⟨sample.accepted, sample.accepted⟩ sample.projectCorrupt).calls = [] ∧
      (resourceArmMigrateProjectDelete sample.migrateDecoder
          ⟨sample.accepted, sample.accepted⟩ sample.projectCorrupt).d
        = sample.projectCorrupt) :=
  ⟨(read_delete_undecodable_identifier.1 sample.gremlinDecoder sample.gremlinCorrupt
      "unparseable" rfl).1 sample.gremlinReadOk [],
   (read_delete_undecodable_identifier.2 sample.migrateDecoder sample.projectCorrupt
      "unparseable" rfl).2 ⟨sample.accepted, sample.accepted⟩⟩

/-! ## Create and Update: a mutation request refused synchronously -/

/-- The base create/update request of Gremlin Create and Update: when the remote API
refuses it synchronously, with whatever error, the verb returns the issuing error and
awaits nothing. -/
theorem gremlin_base_request_refused_fails (dec : cosmos.Decoder) (err : GoError) :
    (∀ (shouldImport : Bool) (remote : cosmos.CreateReplies) (d : cosmos.ResourceData),
        remote.createUpdate.err = some err →
        (resourceArmCosmosGremlinDatabaseCreate dec shouldImport remote d).calls.any
          cosmos.Call.isMutation = true →
        (resourceArmCosmosGremlinDatabaseCreate dec shouldImport remote d).result
          = .failure (.errorf .issuingCreateUpdate (some err)) ∧
        (resourceArmCosmosGremlinDatabaseCreate dec shouldImport remote d).calls.any
          cosmos.Call.isWait = false) ∧
    (∀ (remote : cosmos.UpdateReplies) (d : cosmos.ResourceData) (id : GremlinDatabaseId),
        dec d.Id = .ok id → remote.createUpdate.err = some err →
        (resourceArmCosmosGremlinDatabaseUpdate dec remote d).result
          = .failure (.errorf .issuingCreateUpdate (some err)) ∧
        (resourceArmCosmosGremlinDatabaseUpdate dec remote d).calls.any
          cosmos.Call.isWait = false) := by
  refine ⟨?_, ?_⟩
  · intro shouldImport remote d herr hmut
    cases h0 : shouldImport <;> cases h1 : remote.existing.err <;>
      cases h2 : remote.existing.val.ID <;>
      cases h3 : utils.ResponseWasNotFound remote.existing.val.Response <;>
      simp [resourceArmCosmosGremlinDatabaseCreate, cosmos.Call.isMutation,
        cosmos.Call.isWait, h0, h1, h2, h3, herr] at hmut ⊢
  · intro remote d id hdec herr
    simp [resourceArmCosmosGremlinDatabaseUpdate, cosmos.Call.isWait, hdec, herr]

/-- The throughput update request of Gremlin Update: when the remote API refuses it
synchronously with an error that is not NotFound, Update does not return that error; it
goes on to call the wait on the refused future and ends the way that wait ends, with the
wait's error or with a fault, never reaching the re-read. -/
theorem gremlin_update_awaits_refused_throughput_request (dec : cosmos.Decoder)
    (remote : cosmos.UpdateReplies) (d : cosmos.ResourceData) (id : GremlinDatabaseId)
    (err : GoError)
    (hdec : dec d.Id = .ok id)
    (hchange : d.HasChangeThroughput = true)
    (hbase : remote.createUpdate.err = none ∧ remote.wait.err = none)
    (hrej : remote.throughputUpdate.err = some err)
    (hnnf : response.WasNotFound remote.throughputUpdate.val.Response = false) :
    (resourceArmCosmosGremlinDatabaseUpdate dec remote d).calls
      = [.CreateUpdateGremlinDatabase id.ResourceGroup id.Account id.Name id.Name none,
         .WaitCreateUpdate,
         .UpdateGremlinDatabaseThroughput id.ResourceGroup id.Account id.Name d.GetThroughput,
         .WaitThroughputUpdate] ∧
    (resourceArmCosmosGremlinDatabaseUpdate dec remote d).result
      = (match remote.throughputWaitRefused with
          | .error werr => .failure (.errorf .waitingThroughputUpdate (some werr))
          | .fault => .nilDereference) ∧
    (resourceArmCosmosGremlinDatabaseUpdate dec remote d).d = d := by
  cases h1 : remote.throughputWaitRefused <;>
    simp [resourceArmCosmosGremlinDatabaseUpdate, hdec, hchange, hbase.1, hbase.2, hrej, hnnf,
      h1]

/-- C9 at its failing input: in a Gremlin database Update whose throughput changed, a
throughput update request that the remote API refuses synchronously with an error other
than NotFound (status 500, or no response at all) is not returned: Update goes on to call
`WaitForCompletionRef` on the refused future, and ends with the error of that wait, or
with the fault of that wait instead of an error. -/
theorem gremlin_update_waits_on_refused_throughput_request :
    sample.gremlinExisting.HasChangeThroughput = true ∧
    (sample.gremlinThroughputRefused (some 500)).throughputUpdate.err
      = some "request refused" ∧
    (resourceArmCosmosGremlinDatabaseUpdate sample.gremlinDecoder
        (sample.gremlinThroughputRefused (some 500)) sample.gremlinExisting).calls
      = [.CreateUpdateGremlinDatabase "rg1" "acct1" "db1" "db1" none,
         .WaitCreateUpdate,
         .UpdateGremlinDatabaseThroughput "rg1" "acct1" "db1" 400,
         .WaitThroughputUpdate] ∧
    (resourceArmCosmosGremlinDatabaseUpdate sample.gremlinDecoder
        (sample.gremlinThroughputRefused (some 500)) sample.gremlinExisting).result
      = .failure (.errorf .waitingThroughputUpdate (some "operation failed")) ∧
    (sample.gremlinThroughputRefusedFault none).throughputUpdate.err
      = some "request refused" ∧
    (resourceArmCosmosGremlinDatabaseUpdate sample.gremlinDecoder
        (sample.gremlinThroughputRefusedFault none) sample.gremlinExisting).calls
      = [.CreateUpdateGremlinDatabase "rg1" "acct1" "db1" "db1" none,
         .WaitCreateUpdate,
         .UpdateGremlinDatabaseThroughput "rg1" "acct1" "db1" 400,
         .WaitThroughputUpdate] ∧
    (resourceArmCosmosGremlinDatabaseUpdate sample.gremlinDecoder
        (sample.gremlinThroughputRefusedFault none) sample.gremlinExisting).result
      = .nilDereference := by
  decide

/-! ## The `name` validator -/

/-- A single piece matches a whole text exactly when the length of the text is within the
bounds of the piece and every character is in its class. -/
theorem matchAnchored_single (p : Piece) (t : List Char) (hp : p.min ≤ p.max) :
    matchAnchored [p] t
      = (decide (p.min ≤ t.length) && decide (t.length ≤ p.max) && t.all p.cls.contains) := by
  rw [Bool.eq_iff_iff]
  simp only [matchAnchored, List.any_eq_true, List.mem_range, Bool.and_eq_true, decide_eq_true_eq,
    List.isEmpty_iff, List.drop_eq_nil_iff]
  constructor
  · rintro ⟨k, hk, ⟨hle, hall⟩, hdrop⟩
    have hlen : p.min + k = t.length := le_antisymm hle hdrop
    refine ⟨⟨by omega, by omega⟩, ?_⟩
    rw [hlen, List.take_length] at hall
    exact hall
  · rintro ⟨⟨h1, h2⟩, hall⟩
    refine ⟨t.length - p.min, by omega, ⟨by omega, ?_⟩, by omega⟩
    have : p.min + (t.length - p.min) = t.length := by omega
    rw [this, List.take_length]
    exact hall

/-- A leading piece with an exact count takes that many characters, all in its class,
and leaves the rest of the text to the remaining pieces. -/
theorem matchAnchored_exact (p : Piece) (rest : List Piece) (t : List Char)
    (hp : p.max = p.min) :
    matchAnchored (p :: rest) t
      = (decide (p.min ≤ t.length) && (t.take p.min).all p.cls.contains
          && matchAnchored rest (t.drop p.min)) := by
  have hrange : List.range 1 = [0] := rfl
  rw [matchAnchored, hp]
  simp [hrange]

/-- What the `name` validator implements: it accepts exactly the strings of 3 to 24
characters that start with a letter and continue with lower-case letters, digits
and `-` only. -/
theorem nameAccepted_eq_rule (v : String) : nameAccepted v = nameRuleOfPattern v := by
  have hacc : nameAccepted v = matchAnchored nameRegexp v.toList := by
    unfold nameAccepted nameValidateFunc StringMatch
    split
    · rename_i h
      rw [h]; rfl
    · rename_i h
      rw [Bool.not_eq_true] at h
      rw [h]; rfl
  have hcls : CharClass.contains [('-', '-'), ('a', 'z'), ('0', '9')]
      = fun c => (decide ('a' ≤ c) && decide (c ≤ 'z')) || isNumber c || c == '-' := by
    funext c
    have hdash : (decide ('-' ≤ c) && decide (c ≤ '-')) = (c == '-') := by
      rw [Bool.eq_iff_iff]
      simp only [Bool.and_eq_true, decide_eq_true_eq, beq_iff_eq]
      constructor
      · rintro ⟨h1, h2⟩; exact le_antisymm h2 h1
      · rintro rfl; exact ⟨le_refl _, le_refl _⟩
    simp only [CharClass.contains, List.any_cons, List.any_nil, Bool.or_false, hdash, isNumber]
    cases (c == '-') <;> cases (decide ('a' ≤ c) && decide (c ≤ 'z')) <;>
      cases (decide ('0' ≤ c) && decide (c ≤ '9')) <;> rfl
  have hfirst : ∀ ch, CharClass.contains [('a', 'z'), ('A', 'Z')] ch = isLetter ch := by
    intro ch
    simp [CharClass.contains, isLetter]
  rw [hacc]
  unfold nameRuleOfPattern nameRegexp
  generalize v.toList = text
  rw [matchAnchored_exact _ _ _ rfl, matchAnchored_single _ _ (by decide), hcls]
  cases text with
  | nil => simp
  | cons ch rest =>
    simp only [List.take, List.drop, List.all_cons, List.all_nil, List.length_cons, hfirst,
      Bool.and_true]
    rw [Bool.eq_iff_iff]
    simp only [Bool.and_eq_true, decide_eq_true_eq]
    constructor
    · rintro ⟨⟨_, h1⟩, ⟨h2, h3⟩, h4⟩
      exact ⟨⟨by omega, by omega⟩, h1, h4⟩
    · rintro ⟨⟨h2, h3⟩, h1, h4⟩
      exact ⟨⟨by omega, h1⟩, ⟨by omega, by omega⟩, h4⟩

/-- C10 at its failing input: `ABC` is 3 characters long, starts with a letter and
contains only letters, so the rule of the validation message admits it, yet the
validator rejects it with that very message: the pattern allows an upper-case letter
only in first place. -/
theorem name_validator_rejects_upper_case :
    nameRuleOfMessage "ABC" = true ∧
    nameAccepted "ABC" = false ∧
    nameValidateFunc "ABC" =
      ["Migrate Project name must be 3 - 24 characters long, start with a letter, contain only letters, numbers and -."] ∧
    nameAccepted "Abc" = true := by
  decide

/-! ## The registration of the Migrate Project resource -/

/-- The only key the registration's map of resources answers to is
`azurerm_analysis_services_server`. -/
theorem registration_lookup_iff (key : String) (r : schema.Resource) :
    (Registration.SupportedResources ⟨⟩).lookup key = some r ↔
      key = "azurerm_analysis_services_server" ∧ r = resourceArmMigrateProject := by
  by_cases h : key = "azurerm_analysis_services_server"
  · subst h
    simp [Registration.SupportedResources, List.lookup, eq_comm]
  · have hb : (key == "azurerm_analysis_services_server") = false := by simpa using h
    simp [Registration.SupportedResources, List.lookup, hb, h]

/-- C11 at its failing input: the map of `SupportedResources` has no entry for the key
`azurerm_migrate_project`, the type the resource's own import-exists error names; its
only key is `azurerm_analysis_services_server`, and that key is mapped to the Migrate
Project resource. -/
theorem registration_lacks_migrate_project_key :
    (Registration.SupportedResources ⟨⟩).lookup "azurerm_migrate_project" = none ∧
    (Registration.SupportedResources ⟨⟩).map Prod.fst = ["azurerm_analysis_services_server"] ∧
    (Registration.SupportedResources ⟨⟩).lookup "azurerm_analysis_services_server"
      = some resourceArmMigrateProject ∧
    (resourceArmMigrateProjectCreateUpdate sample.migrateDecoder sample.projectExistingWithID
        sample.projectNew).result
      = .failure (.importAsExists "azurerm_migrate_project" "/rg1/proj1") := by
  decide

/-! ## Create: the nil identifier in the Gremlin import check -/

/-- Gremlin Read never dereferences a nil pointer and never returns the
generating-import-ID error. -/
theorem gremlin_read_result (dec : cosmos.Decoder) (remote : cosmos.ReadReplies)
    (d : cosmos.ResourceData) (calls : List cosmos.Call) :
    (resourceArmCosmosGremlinDatabaseRead dec remote d calls).result ≠ .nilDereference ∧
    ∀ cause, (resourceArmCosmosGremlinDatabaseRead dec remote d calls).result
      ≠ .failure (.errorf .generatingImportID cause) := by
  cases h1 : dec d.Id <;> cases h2 : remote.get.err <;> cases h3 : remote.throughput.err <;>
    cases h4 : utils.ResponseWasNotFound remote.get.val.Response <;>
    cases h5 : utils.ResponseWasNotFound remote.throughput.val.Response <;>
    simp [resourceArmCosmosGremlinDatabaseRead, h1, h2, h3, h4, h5]

/-- Gremlin Create ends in a nil dereference exactly when the import-safety lookup is
performed and succeeds with an absent identifier. -/
theorem gremlin_create_nil_dereference_iff (dec : cosmos.Decoder) (shouldImport : Bool)
    (remote : cosmos.CreateReplies) (d : cosmos.ResourceData) :
    (resourceArmCosmosGremlinDatabaseCreate dec shouldImport remote d).result = .nilDereference ↔
      shouldImport = true ∧ remote.existing.err = none ∧ remote.existing.val.ID = none := by
  have hread := fun d calls => (gremlin_read_result dec remote.read d calls).1
  cases h0 : shouldImport <;> cases h1 : remote.existing.err <;>
    cases h2 : remote.existing.val.ID <;>
    cases h3 : utils.ResponseWasNotFound remote.existing.val.Response <;>
    cases h4 : remote.createUpdate.err <;> cases h5 : remote.wait.err <;>
    cases h6 : remote.get.err <;> cases h7 : remote.get.val.ID <;>
    simp [resourceArmCosmosGremlinDatabaseCreate, h0, h1, h2, h3, h4, h5, h6, h7, hread]

/-- Gremlin Create never returns the generating-import-ID error: the branch that
returns it is guarded by a condition that is false or dereferences nil. -/
theorem gremlin_create_never_generating_import_id (dec : cosmos.Decoder)
    (shouldImport : Bool) (remote : cosmos.CreateReplies) (d : cosmos.ResourceData)
    (cause : Option GoError) :
    (resourceArmCosmosGremlinDatabaseCreate dec shouldImport remote d).result
      ≠ .failure (.errorf .generatingImportID cause) := by
  have hread := fun d calls => (gremlin_read_result dec remote.read d calls).2 cause
  cases h0 : shouldImport <;> cases h1 : remote.existing.err <;>
    cases h2 : remote.existing.val.ID <;>
    cases h3 : utils.ResponseWasNotFound remote.existing.val.Response <;>
    cases h4 : remote.createUpdate.err <;> cases h5 : remote.wait.err <;>
    cases h6 : remote.get.err <;> cases h7 : remote.get.val.ID <;>
    simp [resourceArmCosmosGremlinDatabaseCreate, h0, h1, h2, h3, h4, h5, h6, h7, hread]

/-- C12 at its failing input: when the import-safety lookup of Gremlin database Create
succeeds with an absent identifier, evaluating `existing.ID == nil && *existing.ID == ""`
dereferences the nil identifier: Create neither returns the generating-import-ID error
nor goes on to the mutation, its only call is the lookup. -/
theorem gremlin_create_import_check_dereferences_nil :
    sample.gremlinExistingWithoutID.existing.err = none ∧
    sample.gremlinExistingWithoutID.existing.val.ID = none ∧
    nilAndEmpty sample.gremlinExistingWithoutID.existing.val.ID = none ∧
    (resourceArmCosmosGremlinDatabaseCreate sample.gremlinDecoder true
        sample.gremlinExistingWithoutID sample.gremlinNew).result = .nilDereference ∧
    (resourceArmCosmosGremlinDatabaseCreate sample.gremlinDecoder true
        sample.gremlinExistingWithoutID sample.gremlinNew).calls
      = [.GetGremlinDatabase "rg1" "acct1" "db1"] := by
  decide

end Azurerm
